import Mathlib

/-
Verification development for the papersearch server
(src/src/papersearch/server.py).

Shallow embedding conventions:
  * Python `str` is Lean `String`; `str.lower()` is `Char.toLower` over the
    character list (ASCII-faithful); `needle in hay` on strings is substring
    occurrence (`isSubStr`).
  * `datetime` values (`paper.published`, `datetime.now(timezone.utc)`, the
    cutoff) are modelled as `Int` time points measured in days, so
    `now - timedelta(days=days)` becomes `now - days`; only their linear
    order is ever used by the code.  `strftime(%Y-%m-%d)` is an abstract
    rendering function `Env.fmtDate` supplied by the environment.
  * Python floats are modelled as `ℚ` (the scores are single divisions of
    small integers, where float and rational arithmetic agree on every
    comparison made by the program).
  * The external arxiv client is the capability record `Env`:
    `Env.lookup` is `client.results(arxiv.Search(id_list=[qt]))` reduced to
    its first element (or `none` on `StopIteration`), and `Env.search` is
    the stream produced for a free-text query string and result cap.
  * A raised Python exception is `Except.error` carrying `str(e)`.
-/

set_option maxRecDepth 8000

/-- `listStarts needle hay`: `needle` is a leading segment of `hay`. -/
def listStarts : List Char → List Char → Bool
  | [], _ => true
  | _ :: _, [] => false
  | a :: as, b :: bs => a == b && listStarts as bs

/-- `isSubStr needle hay`: `needle` occurs contiguously inside `hay`
(Python `needle in hay` on strings). -/
def isSubStr : List Char → List Char → Bool
  | needle, [] => needle.isEmpty
  | needle, c :: tl => listStarts needle (c :: tl) || isSubStr needle tl

/-- `s.lower()` as a character list. -/
def lowerChars (s : String) : List Char := s.data.map Char.toLower

/-- `needle.lower() in hay.lower()` (server.py lines 42 and 44). -/
def containsCI (hay needle : String) : Bool :=
  isSubStr (lowerChars needle) (lowerChars hay)

/-- Code-point lexicographic `<` on character lists (Python string `<`). -/
def charListLt : List Char → List Char → Bool
  | [], [] => false
  | [], _ :: _ => true
  | _ :: _, [] => false
  | a :: as, b :: bs => decide (a < b) || (a == b && charListLt as bs)

/-- Python string comparison `a < b`. -/
def strLt (a b : String) : Bool := charListLt a.data b.data

/-- `re.match(r'\d{4}\.\d{4,5}(?:v\d+)?', s)` viewed as a Boolean
(server.py lines 53-54).  `re.match` anchors at the start only and the
pattern has no end anchor, so — because everything after the first four
digits, the dot, and four further digits is unconstrained (`\d{4,5}` can
stop at four digits and the version group is optional) — the match
succeeds exactly when the first nine characters are
digit,digit,digit,digit,'.',digit,digit,digit,digit. -/
def matchesArxivId (s : String) : Bool :=
  match s.data with
  | a :: b :: c :: d :: dot :: e :: f :: g :: h :: _ =>
    a.isDigit && b.isDigit && c.isDigit && d.isDigit && dot == '.' &&
    e.isDigit && f.isDigit && g.isDigit && h.isDigit
  | _ => false

/-- A raw record yielded by the arxiv client (fields of `paper` that
server.py reads). -/
structure RawPaper where
  title : String
  authors : List String
  summary : String
  pdf_url : String
  published : Int
  categories : List String
deriving DecidableEq, Repr

/-- The dict built per paper by `search_papers` (server.py lines 57-65 and
107-117). -/
structure Paper where
  title : String
  authors : List String
  summary : String
  url : String
  published_date : String
  categories : List String
  relevance_score : ℚ
deriving DecidableEq, Repr

/-- The external world of one invocation: the arxiv client and the clock. -/
structure Env where
  lookup : String → Option RawPaper
  search : String → Int → List RawPaper
  now : Int
  fmtDate : Int → String

/-- The `arguments` dict of a tool call: each key either absent/None or
present (server.py lines 213-217 read them with `arguments.get`). -/
structure ToolArgs where
  days : Option Int
  query_type : Option String
  max_results : Option Int
  field : Option String
  keywords : Option (List String)

/-- Weight contributed by one keyword: 2 for a case-insensitive title hit
plus 1 for a case-insensitive summary hit (server.py lines 41-45). -/
def keywordScore (p : RawPaper) (k : String) : Nat :=
  (if containsCI p.title k then 2 else 0) + (if containsCI p.summary k then 1 else 0)

/-- `calculate_relevance_score` (server.py lines 27-48).  The loop
accumulates `score` as the sum of per-keyword weights and `total_weight`
as `3 * len(keywords)`; the final line is
`score / total_weight if total_weight > 0 else 0`. -/
def calculate_relevance_score (p : RawPaper) (keywords : List String) : ℚ :=
  if keywords = [] then 1
  else if 0 < 3 * keywords.length then
    (((keywords.map (keywordScore p)).sum : ℕ) : ℚ) / ((3 * keywords.length : ℕ) : ℚ)
  else 0

/-- The scoring formula exactly as the spec words it (§4.2): sum over
keywords of (2 for a title occurrence) + (1 for a summary occurrence),
divided by `3 × |keywords|`. -/
def specRelevance (p : RawPaper) (ks : List String) : ℚ :=
  ((ks.map fun k => (if containsCI p.title k then (2 : ℚ) else 0)
      + (if containsCI p.summary k then (1 : ℚ) else 0)).sum) / (3 * (ks.length : ℚ))

/-- The retention check of the ranking loop:
`len(keywords) > 0 or paper.published >= cutoff_date` (server.py line 106),
for the case in which `keywords` is an actual list. -/
def retainPaper (keywords : List String) (cutoff : Int) (p : RawPaper) : Bool :=
  decide (0 < keywords.length) || decide (cutoff ≤ p.published)

/-- The dict built for one retained paper (server.py lines 107-117);
`[str(author) for author in paper.authors]` is the identity on our
already-string author lists. -/
def mkPaperDict (fmt : Int → String) (keywords : List String) (p : RawPaper) : Paper :=
  { title := p.title, authors := p.authors, summary := p.summary, url := p.pdf_url,
    published_date := fmt p.published, categories := p.categories,
    relevance_score := calculate_relevance_score p keywords }

/-- The dict built in the identifier-lookup branch (server.py lines 57-65):
same fields, `relevance_score` pinned to 1.0. -/
def idLookupPaper (env : Env) (p : RawPaper) : Paper :=
  { title := p.title, authors := p.authors, summary := p.summary, url := p.pdf_url,
    published_date := env.fmtDate p.published, categories := p.categories,
    relevance_score := 1 }

/-- The identifier-lookup branch (server.py lines 55-67): the first record
for `id_list=[query_type]`, or `[]` on `StopIteration`. -/
def idLookup (env : Env) (query_type : String) : List Paper :=
  match env.lookup query_type with
  | some p => [idLookupPaper env p]
  | none => []

/-- `str(e)` for the `TypeError` raised by `len(None)` at server.py line
106 when `keywords` is `None` (apostrophes of the CPython message elided). -/
def typeErrorMsg : String := "TypeError: object of type NoneType has no len()"

/-- The ranking loop of `search_papers` (server.py lines 104-118).  Each
iteration evaluates `len(keywords)`, which raises `TypeError` when
`keywords` is `None`; otherwise a retained paper is enriched and kept in
stream order. -/
def searchLoop (keywords : Option (List String)) (cutoff : Int) (fmt : Int → String) :
    List RawPaper → Except String (List Paper)
  | [] => .ok []
  | p :: rest =>
    match keywords with
    | none => .error typeErrorMsg
    | some l =>
      match searchLoop (some l) cutoff fmt rest with
      | .error e => .error e
      | .ok tail =>
        if retainPaper l cutoff p then .ok (mkPaperDict fmt l p :: tail) else .ok tail

/-- The fixed expression emitted for the literal topic "moe inference"
(server.py line 74). -/
def moeQuery : String :=
  "(ti:\"mixture of experts\" OR ti:moe) AND (ti:deployment OR abs:deployment OR ti:inference OR abs:inference OR ti:efficient OR abs:efficient)"

/-- One keyword clause (server.py line 87). -/
def kwCond (k : String) : String := "(ti:\"" ++ k ++ "\" OR abs:\"" ++ k ++ "\")"

/-- Query construction of the free-text branch (server.py lines 70-93).
Python truthiness: an empty string or `None` field and an empty or `None`
keyword list contribute nothing. -/
def buildQuery (query_type : String) (field : Option String)
    (keywords : Option (List String)) : String :=
  let p1 : List String :=
    if query_type = "moe inference" then [moeQuery]
    else if query_type ≠ "" then [query_type]
    else []
  let p2 : List String :=
    match field with
    | some f => if f ≠ "" then ["(cat:\"" ++ f ++ "\")"] else []
    | none => []
  let p3 : List String :=
    match keywords with
    | some ks =>
      if ks ≠ [] then ["(" ++ String.intercalate " OR " (ks.map kwCond) ++ ")"]
      else []
    | none => []
  let query_parts := p1 ++ p2 ++ p3
  if query_parts ≠ [] then String.intercalate " AND " query_parts else "*:*"

/-- Strict comparison of the Python sort keys
`(-x['relevance_score'], x['published_date'])` (server.py line 121):
lexicographic tuple order, strings compared by code point. -/
def keyLt (a b : Paper) : Bool :=
  decide (-a.relevance_score < -b.relevance_score)
  || (decide (a.relevance_score = b.relevance_score)
      && strLt a.published_date b.published_date)

/-- Stable insertion for a descending-by-key order: `x` goes in front of
the first element whose key is not greater than `x`'s. -/
def sortedInsert (x : Paper) : List Paper → List Paper
  | [] => [x]
  | y :: ys => if keyLt x y then y :: sortedInsert x ys else x :: y :: ys

/-- `papers.sort(key=lambda x: (-x['relevance_score'], x['published_date']), reverse=True)`
(server.py line 121).  CPython's sort is stable, and `reverse=True` keeps
equal-keyed elements in stream order while arranging keys in descending
order; a stable sort's output is uniquely determined by those two facts,
so this stable insertion sort computes exactly the same list. -/
def sortPapers : List Paper → List Paper
  | [] => []
  | x :: xs => sortedInsert x (sortPapers xs)

/-- Python slice `l[:n]` for an `int` bound `n`: a nonnegative bound takes
a prefix, a negative bound drops `-n` elements from the end. -/
def pySliceTo (n : Int) (l : List α) : List α :=
  if 0 ≤ n then l.take n.toNat else l.take ((l.length : Int) + n).toNat

/-- The free-text branch of `search_papers` (server.py lines 69-124):
build the boolean query, fetch up to `max(100, max_results * 2)` raw
records, run the retention/scoring loop with cutoff `now - days`, sort,
and slice to `max_results`. -/
def freeTextSearch (env : Env) (days : Int) (query_type : String) (max_results : Int)
    (field : Option String) (keywords : Option (List String)) : Except String (List Paper) :=
  (searchLoop keywords (env.now - days) env.fmtDate
      (env.search (buildQuery query_type field keywords) (max 100 (max_results * 2)))).map
    (fun papers => pySliceTo max_results (sortPapers papers))

/-- `search_papers` (server.py lines 15-124): identifier lookup when
`query_type` is truthy and prefix-matches the arxiv-id pattern, the
free-text pipeline otherwise. -/
def search_papers (env : Env) (days : Int) (query_type : String) (max_results : Int)
    (field : Option String) (keywords : Option (List String)) : Except String (List Paper) :=
  if query_type ≠ "" ∧ matchesArxivId query_type = true then .ok (idLookup env query_type)
  else freeTextSearch env days query_type max_results field keywords

/-- Floor of a rational (via flooring integer division). -/
def ratFloor (q : ℚ) : Int := Int.fdiv q.num q.den

/-- Round to nearest with ties to even, the rounding used by Python's
fixed-point float formatting. -/
def roundHalfEven (q : ℚ) : Int :=
  let f := ratFloor q
  let frac := q - f
  if frac < 1 / 2 then f
  else if 1 / 2 < frac then f + 1
  else if f % 2 = 0 then f else f + 1

/-- `f"{x:.2f}"` on our rational model of the score. -/
def fmtScore2 (q : ℚ) : String :=
  let n := roundHalfEven (q * 100)
  let sign := if n < 0 then "-" else ""
  let m := n.natAbs
  sign ++ toString (m / 100) ++ "." ++ (if m % 100 < 10 then "0" else "") ++ toString (m % 100)

/-- The text block for one paper (server.py lines 139-149); with
`show_score` the score line is `insert`ed at position 1. -/
def paperLines (i : Nat) (show_score : Bool) (p : Paper) : List String :=
  let base := [
    toString i ++ ". " ++ p.title,
    "作者: " ++ String.intercalate ", " p.authors,
    "发布日期: " ++ p.published_date,
    "领域分类: " ++ String.intercalate ", " p.categories,
    "链接: " ++ p.url,
    "摘要: " ++ p.summary]
  if show_score then
    base.take 1 ++ ["相关性得分: " ++ fmtScore2 p.relevance_score] ++ base.drop 1
  else base

/-- `format_papers` (server.py lines 126-153). -/
def format_papers (papers : List Paper) (show_score : Bool) : String :=
  if papers = [] then "在指定时间范围内未找到相关论文。"
  else
    String.intercalate "\n\n"
      ((List.enumFrom 1 papers).map
        (fun ip => String.intercalate "\n" (paperLines ip.1 show_score ip.2) ++ "\n---"))

/-- `handle_call_tool` (server.py lines 197-224): the `ValueError` for an
unknown tool escapes (it is raised before the `try`), every exception from
the body is converted to the error-marker text, and `format_papers` is
called with its default `show_score=False`. -/
def handle_call_tool (env : Env) (name : String) (a : ToolArgs) : Except String String :=
  if name = "papersearch" then
    .ok (match search_papers env (a.days.getD 7) (a.query_type.getD "moe")
            (a.max_results.getD 100) a.field a.keywords with
      | .error e => "出现错误: " ++ e
      | .ok papers => format_papers papers false)
  else .error ("Unknown tool: " ++ name)

/-- Concrete raw record: "alpha" appears in the title. -/
def rawAlpha : RawPaper :=
  { title := "alpha paper", authors := ["A"], summary := "s", pdf_url := "uA",
    published := 900, categories := ["cs.AI"] }

/-- Concrete raw record: no occurrence of "alpha". -/
def rawBeta : RawPaper :=
  { title := "beta paper", authors := ["B"], summary := "t", pdf_url := "uB",
    published := 800, categories := ["cs.LG"] }

/-- Environment whose search stream yields `rawAlpha` then `rawBeta`. -/
def envC1 : Env :=
  { lookup := fun _ => none, search := fun _ _ => [rawAlpha, rawBeta],
    now := 1000, fmtDate := fun n => toString n }

/-- Environment whose search stream is empty and whose lookups all miss. -/
def envEmpty : Env :=
  { lookup := fun _ => none, search := fun _ _ => [], now := 0, fmtDate := fun _ => "" }

/-- Environment whose search stream yields exactly one record. -/
def envOne : Env :=
  { lookup := fun _ => none, search := fun _ _ => [rawAlpha], now := 0,
    fmtDate := fun _ => "" }

/-- Concrete raw record served by the identifier lookup. -/
def rawIdPaper : RawPaper :=
  { title := "Attention is not all you need", authors := ["Y"],
    summary := "pure attention", pdf_url := "uI", published := 700,
    categories := ["cs.LG"] }

/-- Environment whose lookup hits exactly on the string "2103.03404". -/
def envHit : Env :=
  { lookup := fun s => if s = "2103.03404" then some rawIdPaper else none,
    search := fun _ _ => [], now := 0, fmtDate := fun n => toString n }

/-- Paper with "moe" in the title and "inference" in the summary. -/
def paperTitleSummary : RawPaper :=
  { title := "Moe systems", authors := [], summary := "Efficient inference at scale",
    pdf_url := "", published := 0, categories := [] }

/-- Paper with both "moe" and "inference" only in the title. -/
def paperTitleOnly : RawPaper :=
  { title := "Moe inference", authors := [], summary := "A study of routing",
    pdf_url := "", published := 0, categories := [] }

/-- The ranking loop with an actual keyword list never raises: it filters by
the retention check and enriches each retained record, in stream order. -/
theorem searchLoop_some (fmt : Int → String) (l : List String) (cutoff : Int)
    (raws : List RawPaper) :
    searchLoop (some l) cutoff fmt raws
      = .ok ((raws.filter (retainPaper l cutoff)).map (mkPaperDict fmt l)) := by
  induction raws with
  | nil => rfl
  | cons p rest ih =>
    simp only [searchLoop, ih, List.filter_cons, List.map_cons]
    by_cases hr : retainPaper l cutoff p <;> simp [hr]

/-- An element of a stable insertion is the inserted element or an old one. -/
theorem mem_sortedInsert {a x : Paper} {l : List Paper}
    (h : a ∈ sortedInsert x l) : a = x ∨ a ∈ l := by
  induction l with
  | nil => simpa [sortedInsert] using h
  | cons y ys ih =>
    simp only [sortedInsert] at h
    split at h
    · rcases List.mem_cons.mp h with h1 | h2
      · exact Or.inr (by simp [h1])
      · rcases ih h2 with h3 | h4
        · exact Or.inl h3
        · exact Or.inr (List.mem_cons_of_mem _ h4)
    · rcases List.mem_cons.mp h with h1 | h2
      · exact Or.inl h1
      · exact Or.inr h2

/-- Sorting introduces no new elements. -/
theorem mem_sortPapers {a : Paper} {l : List Paper} (h : a ∈ sortPapers l) : a ∈ l := by
  induction l with
  | nil => simp only [sortPapers] at h; exact absurd h (List.not_mem_nil a)
  | cons x xs ih =>
    simp only [sortPapers] at h
    rcases mem_sortedInsert h with h1 | h2
    · simp [h1]
    · exact List.mem_cons_of_mem _ (ih h2)

/-- A stable insertion grows the length by one. -/
theorem length_sortedInsert (x : Paper) (l : List Paper) :
    (sortedInsert x l).length = l.length + 1 := by
  induction l with
  | nil => rfl
  | cons y ys ih =>
    simp only [sortedInsert]
    split <;> simp [ih]

/-- Sorting preserves the length. -/
theorem length_sortPapers (l : List Paper) : (sortPapers l).length = l.length := by
  induction l with
  | nil => rfl
  | cons x xs ih => simp [sortPapers, length_sortedInsert, ih]

/-- Slicing introduces no new elements. -/
theorem mem_pySliceTo {a : α} {n : Int} {l : List α} (h : a ∈ pySliceTo n l) : a ∈ l := by
  unfold pySliceTo at h
  split at h <;> exact List.take_subset _ _ h

/-- Slicing the empty list gives the empty list. -/
theorem pySliceTo_nil (n : Int) : pySliceTo n ([] : List α) = [] := by
  unfold pySliceTo
  split <;> simp

/-- A slice with a nonnegative bound has length at most the bound. -/
theorem length_pySliceTo_le {n : Int} (hn : 0 ≤ n) (l : List α) :
    ((pySliceTo n l).length : Int) ≤ n := by
  unfold pySliceTo
  rw [if_pos hn]
  have h1 : (l.take n.toNat).length ≤ n.toNat := by simp [List.length_take]
  omega

/-- Casting the integer keyword-weight sum to `ℚ` gives the spec's sum. -/
theorem cast_keywordScore_sum (p : RawPaper) (ks : List String) :
    (((ks.map (keywordScore p)).sum : ℕ) : ℚ)
      = (ks.map fun k => (if containsCI p.title k then (2 : ℚ) else 0)
          + (if containsCI p.summary k then (1 : ℚ) else 0)).sum := by
  induction ks with
  | nil => simp
  | cons k t ih =>
    simp only [List.map_cons, List.sum_cons, Nat.cast_add, ih, keywordScore]
    congr 1
    split_ifs <;> norm_num

/-- C1: the claim (and the spec) say `search_papers` returns its results
sorted with relevanceScore descending as the primary key.  The code
(server.py line 121) negates the score inside the sort key AND passes
`reverse=True`, which double-negates the primary key: on this concrete
input the returned sequence is `[score 0, score 2/3]`, i.e. the earlier
element has a strictly lower relevanceScore than the later one, so the
code orders by relevanceScore ascending and violates the claim. -/
theorem sort_descending_code_bug :
    ∃ res, search_papers envC1 7 "topic" 10 none (some ["alpha"]) = .ok res ∧
      res.map Paper.relevance_score = [0, 2 / 3] := by
  have hA : calculate_relevance_score rawAlpha ["alpha"] = 2 / 3 := by
    simp +decide [calculate_relevance_score, keywordScore]
  have hB : calculate_relevance_score rawBeta ["alpha"] = 0 := by
    simp +decide [calculate_relevance_score, keywordScore]
  have hkey : keyLt (mkPaperDict envC1.fmtDate ["alpha"] rawAlpha)
      (mkPaperDict envC1.fmtDate ["alpha"] rawBeta) = true := by
    simp only [keyLt, mkPaperDict, hA, hB]
    norm_num
  have hloop : searchLoop (some ["alpha"]) (envC1.now - 7) envC1.fmtDate
      (envC1.search (buildQuery "topic" none (some ["alpha"])) (max 100 (10 * 2)))
      = .ok [mkPaperDict envC1.fmtDate ["alpha"] rawAlpha,
             mkPaperDict envC1.fmtDate ["alpha"] rawBeta] := by rfl
  have hsort : sortPapers [mkPaperDict envC1.fmtDate ["alpha"] rawAlpha,
      mkPaperDict envC1.fmtDate ["alpha"] rawBeta]
      = [mkPaperDict envC1.fmtDate ["alpha"] rawBeta,
         mkPaperDict envC1.fmtDate ["alpha"] rawAlpha] := by
    simp [sortPapers, sortedInsert, hkey]
  refine ⟨[mkPaperDict envC1.fmtDate ["alpha"] rawBeta,
           mkPaperDict envC1.fmtDate ["alpha"] rawAlpha], ?_, ?_⟩
  · unfold search_papers
    rw [if_neg (by decide)]
    unfold freeTextSearch
    rw [hloop]
    simp only [Except.map]
    rw [hsort]
    rfl
  · simp [mkPaperDict, hA, hB]

/-- C2: in non-identifier mode with an actual keyword list, a raw paper is
retained for ranking iff the keyword list is non-empty or its publication
date is at least `now - days`; non-empty keywords bypass the recency
cutoff entirely, and with empty keywords every paper older than the
cutoff is dropped before ranking (server.py line 106). -/
theorem retention_rule (fmt : Int → String) (l : List String) (cutoff : Int)
    (p : RawPaper) (raws : List RawPaper) :
    (searchLoop (some l) cutoff fmt raws
        = .ok ((raws.filter (retainPaper l cutoff)).map (mkPaperDict fmt l)))
  ∧ (retainPaper l cutoff p = true ↔ (l ≠ [] ∨ cutoff ≤ p.published))
  ∧ (l ≠ [] → retainPaper l cutoff p = true)
  ∧ (l = [] → p.published < cutoff → retainPaper l cutoff p = false) := by
  refine ⟨searchLoop_some fmt l cutoff raws, ?_, ?_, ?_⟩
  · unfold retainPaper
    simp [List.length_pos]
  · intro h
    unfold retainPaper
    simp [List.length_pos.mpr h]
  · intro h1 h2
    unfold retainPaper
    simp [h1]
    omega

/-- C2 witness: with keyword list `["k"]` a paper published at time 800,
far older than the cutoff 993, is still retained (recency bypass). -/
theorem retention_rule_witness : retainPaper ["k"] 993 rawBeta = true :=
  (retention_rule (fun _ => "") ["k"] 993 rawBeta []).2.2.1 (by decide)

/-- C3 counterexample: with `keywords` omitted (None) the claim says the
tool invocation always returns the error-marker text; but when the
retrieval stream is empty the loop body — and with it `len(None)` — never
runs, so `search_papers` returns the empty list and the tool returns the
"no results" sentinel instead. -/
theorem none_keywords_counterexample :
    handle_call_tool envEmpty "papersearch" ⟨none, none, none, none, none⟩
        = .ok "在指定时间范围内未找到相关论文。"
  ∧ search_papers envEmpty 7 "moe" 100 none none = .ok [] := ⟨rfl, rfl⟩

/-- C3 amended: in non-identifier mode with `keywords = None`,
`search_papers` raises `TypeError` at the retention check as soon as the
retrieval yields at least one candidate, and returns the empty list when
the retrieval yields none. -/
theorem none_keywords_type_error (env : Env) (days : Int) (qt : String) (mr : Int)
    (field : Option String) (hid : matchesArxivId qt = false) :
    (env.search (buildQuery qt field none) (max 100 (mr * 2)) = [] →
        search_papers env days qt mr field none = .ok [])
  ∧ (env.search (buildQuery qt field none) (max 100 (mr * 2)) ≠ [] →
        search_papers env days qt mr field none = .error typeErrorMsg) := by
  have hg : ¬(qt ≠ "" ∧ matchesArxivId qt = true) := by simp [hid]
  constructor
  · intro h
    unfold search_papers
    rw [if_neg hg]
    unfold freeTextSearch
    rw [h]
    simp [searchLoop, Except.map, sortPapers, pySliceTo_nil]
  · intro h
    unfold search_papers
    rw [if_neg hg]
    unfold freeTextSearch
    rcases hr : env.search (buildQuery qt field none) (max 100 (mr * 2)) with _ | ⟨p, rest⟩
    · exact absurd hr h
    · rfl

/-- C3 witness: a single-candidate stream with omitted keywords makes
`search_papers` raise the `TypeError`. -/
theorem none_keywords_type_error_witness :
    search_papers envOne 7 "moe" 100 none none = .error typeErrorMsg :=
  (none_keywords_type_error envOne 7 "moe" 100 none (by decide)).2 (by decide)

/-- C4: for a non-empty keyword list the relevance score is the sum over
keywords of (2 per case-insensitive title occurrence) + (1 per
case-insensitive summary occurrence), divided by `3 × |keywords|`
(server.py lines 27-48); in particular a paper with "moe" in the title
and "inference" in the summary scores (2+1)/6 = 1/2 under
keywords=["moe","inference"], and a paper with both words only in the
title scores (2+2)/6 = 2/3. -/
theorem relevance_score_formula :
    (∀ p ks, ks ≠ [] → calculate_relevance_score p ks = specRelevance p ks)
  ∧ calculate_relevance_score paperTitleSummary ["moe", "inference"] = 1 / 2
  ∧ calculate_relevance_score paperTitleOnly ["moe", "inference"] = 2 / 3 := by
  refine ⟨?_, by simp +decide [calculate_relevance_score, keywordScore]; norm_num,
          by simp +decide [calculate_relevance_score, keywordScore]; norm_num⟩
  intro p ks h
  have hlen : 0 < ks.length := List.length_pos.mpr h
  unfold calculate_relevance_score specRelevance
  rw [if_neg h, if_pos (by omega)]
  rw [cast_keywordScore_sum]
  congr 1
  push_cast
  ring

/-- C4 witness: the formula instantiated at a concrete paper and keyword
list. -/
theorem relevance_score_formula_witness :
    ((["a"] : List String) ≠ []) ∧
    calculate_relevance_score paperTitleSummary ["a"] = specRelevance paperTitleSummary ["a"] :=
  ⟨by decide, relevance_score_formula.1 paperTitleSummary ["a"] (by decide)⟩

/-- C5: "2103.03404" and "2103.0340" match the identifier pattern and
"210.03404" does not; a matching (truthy) queryType routes to identifier
lookup, whose result ignores days, maxResults, field, and keywords; a
non-matching queryType falls through to the free-text search pipeline
(server.py lines 52-67). -/
theorem identifier_routing :
    matchesArxivId "2103.03404" = true
  ∧ matchesArxivId "2103.0340" = true
  ∧ matchesArxivId "210.03404" = false
  ∧ (∀ env days qt mr field kws, qt ≠ "" → matchesArxivId qt = true →
      search_papers env days qt mr field kws = .ok (idLookup env qt))
  ∧ (∀ env days mr field kws,
      search_papers env days "210.03404" mr field kws
        = freeTextSearch env days "210.03404" mr field kws) := by
  refine ⟨by decide, by decide, by decide, ?_, ?_⟩
  · intro env days qt mr field kws h1 h2
    unfold search_papers
    rw [if_pos ⟨h1, h2⟩]
  · intro env days mr field kws
    unfold search_papers
    rw [if_neg (by decide)]

/-- C5 witness: identifier routing at a concrete request in which days,
field, and keywords are all set and all ignored. -/
theorem identifier_routing_witness :
    search_papers envHit 3 "2103.0340" 5 (some "cs.AI") (some ["x"])
      = .ok (idLookup envHit "2103.0340") :=
  identifier_routing.2.2.2.1 envHit 3 "2103.0340" 5 (some "cs.AI") (some ["x"])
    (by decide) (by decide)

/-- C6: whenever the keywords sequence is the empty list, every paper in a
successfully returned result carries relevanceScore exactly 1 — in the
identifier branch the score is pinned to 1 (server.py line 64), and in the
search branch `calculate_relevance_score` returns 1 for empty keywords
(server.py lines 31-32). -/
theorem empty_keywords_score_one (env : Env) (days : Int) (qt : String) (mr : Int)
    (field : Option String) (res : List Paper)
    (h : search_papers env days qt mr field (some []) = .ok res) :
    ∀ p ∈ res, p.relevance_score = 1 := by
  intro p hp
  unfold search_papers at h
  split at h
  next hg =>
    have hres : idLookup env qt = res := by simpa using h
    rw [← hres] at hp
    unfold idLookup at hp
    rcases henv : env.lookup qt with _ | q
    · rw [henv] at hp
      simp at hp
    · rw [henv] at hp
      simp at hp
      rw [hp]
      rfl
  next hg =>
    unfold freeTextSearch at h
    rw [searchLoop_some] at h
    simp only [Except.map] at h
    have hres : pySliceTo mr (sortPapers
        (((env.search (buildQuery qt field (some [])) (max 100 (mr * 2))).filter
            (retainPaper [] (env.now - days))).map (mkPaperDict env.fmtDate []))) = res := by
      simpa using h
    rw [← hres] at hp
    have hp2 := mem_sortPapers (mem_pySliceTo hp)
    rcases List.mem_map.mp hp2 with ⟨r, _, hr⟩
    rw [← hr]
    rfl

/-- C6 witness: a concrete empty-keyword search returning two papers, both
scored 1. -/
theorem empty_keywords_score_one_witness :
    (mkPaperDict envC1.fmtDate [] rawAlpha).relevance_score = 1 :=
  empty_keywords_score_one envC1 500 "topic" 10 none
    [mkPaperDict envC1.fmtDate [] rawAlpha, mkPaperDict envC1.fmtDate [] rawBeta]
    (by rfl) (mkPaperDict envC1.fmtDate [] rawAlpha) (by simp)

/-- C7: for a positive maxResults, a successfully returned sequence never
exceeds maxResults entries — the search branch slices `papers[:max_results]`
(server.py line 124) and the identifier branch returns at most one record. -/
theorem result_length_le_max (env : Env) (days : Int) (qt : String) (mr : Int)
    (field : Option String) (kws : Option (List String)) (res : List Paper)
    (hmr : 0 < mr) (h : search_papers env days qt mr field kws = .ok res) :
    (res.length : Int) ≤ mr := by
  unfold search_papers at h
  split at h
  next hg =>
    have hres : idLookup env qt = res := by simpa using h
    rw [← hres]
    unfold idLookup
    rcases henv : env.lookup qt with _ | q <;> simp [henv] <;> omega
  next hg =>
    unfold freeTextSearch at h
    rcases hsl : searchLoop kws (env.now - days) env.fmtDate
        (env.search (buildQuery qt field kws) (max 100 (mr * 2))) with e | papers
    · rw [hsl] at h
      simp [Except.map] at h
    · rw [hsl] at h
      simp only [Except.map] at h
      have hres : pySliceTo mr (sortPapers papers) = res := by simpa using h
      rw [← hres]
      exact length_pySliceTo_le (le_of_lt hmr) _

/-- C7 witness: a concrete request with maxResults 10 returning two
papers. -/
theorem result_length_le_max_witness :
    ((([mkPaperDict envC1.fmtDate [] rawAlpha,
        mkPaperDict envC1.fmtDate [] rawBeta] : List Paper).length : Int)) ≤ 10 :=
  result_length_le_max envC1 500 "topic" 10 none (some [])
    [mkPaperDict envC1.fmtDate [] rawAlpha, mkPaperDict envC1.fmtDate [] rawBeta]
    (by decide) (by rfl)

/-- C8: in identifier-lookup mode a miss returns the empty list as a
normal value (the `StopIteration` handler, server.py lines 66-67), and a
hit returns exactly one record whose relevanceScore is pinned to 1
(server.py lines 57-65). -/
theorem id_lookup_hit_miss (env : Env) (days : Int) (qt : String) (mr : Int)
    (field : Option String) (kws : Option (List String))
    (hne : qt ≠ "") (hm : matchesArxivId qt = true) :
    (env.lookup qt = none → search_papers env days qt mr field kws = .ok [])
  ∧ (∀ p, env.lookup qt = some p →
      search_papers env days qt mr field kws = .ok [idLookupPaper env p]
      ∧ (idLookupPaper env p).relevance_score = 1) := by
  have hroute : search_papers env days qt mr field kws = .ok (idLookup env qt) := by
    unfold search_papers
    rw [if_pos ⟨hne, hm⟩]
  constructor
  · intro h
    rw [hroute]
    simp [idLookup, h]
  · intro p h
    refine ⟨?_, rfl⟩
    rw [hroute]
    simp [idLookup, h]

/-- C8 witness: a concrete lookup hit yields exactly the one enriched
record. -/
theorem id_lookup_hit_miss_witness :
    search_papers envHit 7 "2103.03404" 100 none none
      = .ok [idLookupPaper envHit rawIdPaper] :=
  ((id_lookup_hit_miss envHit 7 "2103.03404" 100 none none (by decide)
      (by decide)).2 rawIdPaper (by decide)).1

/-- C9: `format_papers` on the empty list returns the fixed "no results"
sentinel for either value of the show_score flag (server.py lines
134-135); being a total function of its arguments it raises nothing and
has no side effects. -/
theorem format_papers_empty_sentinel :
    ∀ b : Bool, format_papers [] b = "在指定时间范围内未找到相关论文。" := fun _ => rfl

/-- C10: the identifier check uses `re.match` with no end anchor, so any
queryType whose prefix matches the pattern — here "2103.03404 survey"
with trailing text — routes to identifier lookup, and the whole string,
trailing characters included, is what `Env.lookup` receives. -/
theorem id_match_anchored_only_at_start :
    (∀ s env days mr field kws, s ≠ "" → matchesArxivId s = true →
        search_papers env days s mr field kws = .ok (idLookup env s))
  ∧ matchesArxivId "2103.03404 survey" = true := by
  refine ⟨?_, by decide⟩
  intro s env days mr field kws h1 h2
  unfold search_papers
  rw [if_pos ⟨h1, h2⟩]

/-- C10 witness: the full string "2103.03404 survey" is passed to the
lookup capability (whose table is keyed on the exact string, so the
trailing text makes this concrete lookup miss). -/
theorem id_match_anchored_only_at_start_witness :
    search_papers envHit 7 "2103.03404 survey" 100 none none
      = .ok (idLookup envHit "2103.03404 survey") :=
  id_match_anchored_only_at_start.1 "2103.03404 survey" envHit 7 100 none none
    (by decide) (by decide)
